import Mathlib

/-!
# Settlement subsystem of `server/index.js`, shallowly embedded

Money amounts are embedded as exact rationals (`ℚ`).  The JavaScript
idiom `Number(x.toFixed(2))` is embedded as `round2`, rounding to the
nearest multiple of 1/100 with ties going up, which is `toFixed`'s
rounding rule on decimal values.  A JavaScript `Number(...)` coercion
that may produce `NaN`/`Infinity` is embedded as `NumVal`: either a
finite rational or a non-finite value.
-/

/-- `Number(x.toFixed(2))`: round to two decimal places, ties upward. -/
def round2 (x : ℚ) : ℚ := ((x * 100 + 1 / 2).floor : ℚ) / 100

/-- `Rat.floor` agrees with the order-theoretic floor. -/
theorem rat_floor_eq_floor (q : ℚ) : q.floor = ⌊q⌋ := by
  rw [Rat.floor_def', Rat.floor_def]

/-- `round2` written with the order-theoretic floor. -/
theorem round2_eq_floor (x : ℚ) : round2 x = (⌊x * 100 + 1 / 2⌋ : ℚ) / 100 := by
  rw [round2, rat_floor_eq_floor]

/-- Result of a JavaScript `Number(...)` coercion: a finite value or
`NaN`/`±Infinity` (which `Number.isFinite` rejects). -/
inductive NumVal where
  | fin (q : ℚ)
  | nonFinite
deriving DecidableEq, Repr

/-- A cart line item as inspected by `calcCartTotalUsd`.  The function only
distinguishes objects whose `kind` is `"account"` (reading `Number(it.priceUsd)`,
embedded as a `NumVal`) from every other value: `null`, strings, and objects of
any other kind all take the flat label price branch. -/
inductive CartItem where
  | jsNull
  | jsString (s : String)
  | objAccount (priceUsd : NumVal)
  | objOther
deriving DecidableEq, Repr

/-- Contribution of one item inside the `reduce` of `calcCartTotalUsd`:
an `"account"` object contributes `Number(it.priceUsd)` when finite and `0`
otherwise; every other value contributes `LABEL_PRICE_USD`. -/
def itemUsd (labelPriceUsd : ℚ) : CartItem → ℚ
  | CartItem.objAccount (NumVal.fin q) => q
  | CartItem.objAccount NumVal.nonFinite => 0
  | CartItem.jsNull => labelPriceUsd
  | CartItem.jsString _ => labelPriceUsd
  | CartItem.objOther => labelPriceUsd

/-- The running sum of the `reduce` in `calcCartTotalUsd` (in USD, before
the single `toFixed(2)` at the end). -/
def cartSumUsd (labelPriceUsd : ℚ) (items : List CartItem) : ℚ :=
  items.foldl (fun s it => s + itemUsd labelPriceUsd it) 0

/-- `calcCartTotalUsd` from `server/index.js`: reduce the cart to a USD sum,
then `Number(sum.toFixed(2))` once at the end. -/
def calcCartTotalUsd (labelPriceUsd : ℚ) (items : List CartItem) : ℚ :=
  round2 (cartSumUsd labelPriceUsd items)

/-!
## Ledger store (`wallets.json` + `credit-ledger.txt`)
-/

/-- One value of the `wallets.json` object: `{ balance, updatedAt }`. -/
structure WalletEntry where
  balance : ℚ
  updatedAt : String
deriving DecidableEq, Repr

/-- The `wallets.json` object, as an association list keyed by user id
(a JavaScript object has at most one value per key; lookup takes the
first match). -/
def Wallets := List (String × WalletEntry)
deriving DecidableEq, Repr

/-- `wallets[userId]` read. -/
def walletsLookup (w : Wallets) (uid : String) : Option WalletEntry :=
  (List.find? (fun p => p.1 == uid) w).map Prod.snd

/-- `wallets[userId] = entry` write: replace the existing key or add it. -/
def walletsSet : Wallets → String → WalletEntry → Wallets
  | [], uid, e => [(uid, e)]
  | p :: ps, uid, e => if p.1 == uid then (uid, e) :: ps else p :: walletsSet ps uid e

/-- The `meta` object attached to a ledger line.  `none` means the key is
absent; for `chargeId` the inner `Option` distinguishes an explicit `null`. -/
structure LedgerMeta where
  orderId : Option String
  total : Option ℚ
  itemCount : Option Nat
  chargeId : Option (Option String)
  eventType : Option String
deriving DecidableEq, Repr

/-- One appended line of `credit-ledger.txt`
(`{at, userId, delta, balance, reason, meta}`); `entryAt` embeds the `at` key. -/
structure LedgerEntry where
  entryAt : String
  userId : String
  delta : ℚ
  balance : ℚ
  reason : String
  meta : LedgerMeta
deriving DecidableEq, Repr

/-- The two files touched by `addCredits`. -/
structure CreditState where
  wallets : Wallets
  ledger : List LedgerEntry
deriving DecidableEq, Repr

/-- `getBalance` from `server/index.js`: the stored balance (0 for an unknown
user), re-rounded by `Number(bal.toFixed(2))`. -/
def getBalance (w : Wallets) (userId : String) : ℚ :=
  round2 (((walletsLookup w userId).map WalletEntry.balance).getD 0)

/-- `addCredits` from `server/index.js`: read the previous balance (0 for an
unknown user), set `nextBal = Number((prev + delta).toFixed(2))`, store the
wallet entry, append a ledger line, and return the new balance.  There is no
check of any kind on `delta`. -/
def addCredits (cs : CreditState) (now userId : String) (delta : ℚ)
    (reason : String) (meta : LedgerMeta) : CreditState × ℚ :=
  let prev := (((walletsLookup cs.wallets userId).map WalletEntry.balance)).getD 0
  let nextBal := round2 (prev + delta)
  (⟨walletsSet cs.wallets userId ⟨nextBal, now⟩,
    cs.ledger ++ [⟨now, userId, delta, nextBal, reason, meta⟩]⟩, nextBal)

/-!
## Order store (`orders.json`)
-/

/-- The `user` object written on an order (`{id, email}`). -/
structure UserRef where
  id : Option String
  email : String
deriving DecidableEq, Repr

/-- The `coinbase` object written by the webhook (`{chargeId, eventType}`);
`chargeId` is `data?.id ?? null`. -/
structure CoinbaseInfo where
  chargeId : Option String
  eventType : String
deriving DecidableEq, Repr

/-- An order record.  Each `Option` field is `none` when the corresponding
key is absent from the JavaScript object (so that the spread merge in
`upsertOrder` can be modelled); `user`'s inner `Option` distinguishes an
explicit `null` from a user object. -/
structure Order where
  orderId : String
  createdAt : Option String
  updatedAt : Option String
  status : Option String
  paidAt : Option String
  paymentMethod : Option String
  totalUsd : Option ℚ
  currency : Option String
  items : Option (List CartItem)
  user : Option (Option UserRef)
  coinbase : Option CoinbaseInfo
deriving DecidableEq, Repr

/-- One key of the spread `{...o, ...n}`: the new object's value when the
key is present there, otherwise the old one. -/
def mergeField {α : Type} (o n : Option α) : Option α :=
  match n with
  | some v => some v
  | none => o

/-- `{...orders[idx], ...order}`: merge the patch `n` over the stored order
`o` key by key (both objects carry `orderId`, so the patch's wins). -/
def mergeOrder (o n : Order) : Order where
  orderId := n.orderId
  createdAt := mergeField o.createdAt n.createdAt
  updatedAt := mergeField o.updatedAt n.updatedAt
  status := mergeField o.status n.status
  paidAt := mergeField o.paidAt n.paidAt
  paymentMethod := mergeField o.paymentMethod n.paymentMethod
  totalUsd := mergeField o.totalUsd n.totalUsd
  currency := mergeField o.currency n.currency
  items := mergeField o.items n.items
  user := mergeField o.user n.user
  coinbase := mergeField o.coinbase n.coinbase

/-- `upsertOrder` from `server/index.js`: find the first stored order with
the same `orderId`; if found, replace it with the spread merge, otherwise
push the new order at the end.  It never fails. -/
def upsertOrder : List Order → Order → List Order
  | [], o => [o]
  | x :: xs, o =>
    if x.orderId == o.orderId then mergeOrder x o :: xs
    else x :: upsertOrder xs o

/-!
## Webhook events and server state
-/

/-- The `metadata` object of a webhook event's `data`.  Each field is `none`
when the key is absent.  String fields hold the value of the source's
`String(meta.key ?? "")` coercion for a present, non-null key; `amountUsd`
holds the value of `Number(meta.amountUsd)` for a present key
(`Number(undefined)` is `NaN`, i.e. `NumVal.nonFinite`, when absent). -/
structure WebhookMeta where
  purpose : Option String
  userId : Option String
  orderId : Option String
  amountUsd : Option NumVal
deriving DecidableEq, Repr

/-- The `data` object of a webhook event (`{id, metadata}`); `metadata` is
`none` when missing or not an object. -/
structure WebhookData where
  id : Option String
  metadata : Option WebhookMeta
deriving DecidableEq, Repr

/-- A parsed webhook event after the `payload?.event ?? payload` unwrapping:
`type` is `String(eventObj?.type ?? "")`, and `data` is `none` when
`eventObj?.data` is null or not an object. -/
structure WebhookEvent where
  type : String
  data : Option WebhookData
deriving DecidableEq, Repr

/-- One appended line of `coinbase-commerce-orders.txt`
(`{receivedAt, ...eventObj}`). -/
structure EventLine where
  receivedAt : String
  event : WebhookEvent
deriving DecidableEq, Repr

/-- The four durable stores the settlement subsystem mutates. -/
structure ServerState where
  wallets : Wallets
  creditLedger : List LedgerEntry
  orders : List Order
  eventLog : List EventLine
deriving DecidableEq, Repr

/-- Result of `JSON.parse(rawBody)` followed by event extraction: a parsed
event, or `err` when `JSON.parse` throws (caught by the handler's `catch`,
answered 500). -/
inductive ParseResult where
  | ok (e : WebhookEvent)
  | err
deriving DecidableEq, Repr

/-!
## Webhook reconciler (`POST /api/coinbase/webhook`)
-/

/-- The order patch the webhook writes for a cart order:
`{orderId, status: "paid", paidAt, updatedAt, paymentMethod: "coinbase",
coinbase: {chargeId, eventType}}`.  All other keys are absent. -/
def webhookPaidOrder (now orderId : String) (ev : WebhookEvent) : Order where
  orderId := orderId
  createdAt := none
  updatedAt := some now
  status := some "paid"
  paidAt := some now
  paymentMethod := some "coinbase"
  totalUsd := none
  currency := none
  items := none
  user := none
  coinbase := some ⟨ev.data.bind WebhookData.id, ev.type⟩

/-- `POST /api/coinbase/webhook` from `server/index.js`.

Parameters embed the handler's environment: `hmacHex sec body` is the hex
HMAC-SHA256 of `body` under `sec`; `secret` is
`COINBASE_COMMERCE_WEBHOOK_SECRET` (`none` when unset, answered 500);
`parseEvent` is `JSON.parse` plus the `payload?.event ?? payload`
unwrapping; `sigHeader` is the `X-CC-Webhook-Signature` header (`none`
when missing, read as `""`).

The signature comparison `a.length === b.length && timingSafeEqual(a, b)`
is equality of the two strings.  Only `charge:confirmed` and
`charge:resolved` events are appended to the event log; inside that branch
a `purpose === "topup" && userId && isFinite(amountUsd)` event credits the
wallet by `Number(amountUsd.toFixed(2))`, and a non-topup event with a
non-empty `metadata.orderId` upserts the order as paid.  Everything else
is acknowledged with 200 unchanged. -/
def coinbaseWebhook (hmacHex : String → String → String)
    (secret : Option String) (parseEvent : String → ParseResult)
    (now : String) (sigHeader : Option String) (rawBody : String)
    (st : ServerState) : Nat × ServerState :=
  match secret with
  | none => (500, st)
  | some sec =>
    let sig := sigHeader.getD ""
    let expected := hmacHex sec rawBody
    if sig == expected then
      match parseEvent rawBody with
      | ParseResult.err => (500, st)
      | ParseResult.ok ev =>
        if ev.type == "charge:confirmed" || ev.type == "charge:resolved" then
          let st1 : ServerState := { st with eventLog := st.eventLog ++ [⟨now, ev⟩] }
          let meta := ev.data.bind WebhookData.metadata
          let purpose := (meta.bind WebhookMeta.purpose).getD ""
          let userId := (meta.bind WebhookMeta.userId).getD ""
          let amountUsd : NumVal :=
            match meta with
            | none => NumVal.fin 0
            | some m => m.amountUsd.getD NumVal.nonFinite
          let st2 :=
            if purpose == "topup" && userId != "" then
              match amountUsd with
              | NumVal.fin q =>
                let r := addCredits ⟨st1.wallets, st1.creditLedger⟩ now userId
                  (round2 q) "topup" ⟨none, none, none, some (ev.data.bind WebhookData.id), some ev.type⟩
                { st1 with wallets := r.1.wallets, creditLedger := r.1.ledger }
              | NumVal.nonFinite => st1
            else st1
          let orderId := (meta.bind WebhookMeta.orderId).getD ""
          let st3 :=
            if orderId != "" && purpose != "topup" then
              { st2 with orders := upsertOrder st2.orders (webhookPaidOrder now orderId ev) }
            else st2
          (200, st3)
        else (200, st)
    else (400, st)

/-!
## Settlement API handlers
-/

/-- `POST /api/wallet/pay` from `server/index.js`.  `bodyItems` is
`body.items` (`none` when not an array, read as `[]`); `orderId` is the
freshly generated `crypto.randomUUID()`.  Empty cart and insufficient
balance are both answered 400 with no state change; otherwise the wallet
is debited by the cart total and the order is stored as paid. -/
def walletPay (labelPriceUsd : ℚ) (now userId email : String)
    (bodyItems : Option (List CartItem)) (orderId : String)
    (st : ServerState) : Nat × ServerState :=
  let items := bodyItems.getD []
  if items.isEmpty then (400, st)
  else
    let total := calcCartTotalUsd labelPriceUsd items
    let balance := getBalance st.wallets userId
    if balance < total then (400, st)
    else
      let r := addCredits ⟨st.wallets, st.creditLedger⟩ now userId (-total) "purchase"
        ⟨some orderId, some total, some items.length, none, none⟩
      let paid : Order :=
        { orderId := orderId, createdAt := some now, updatedAt := some now,
          status := some "paid", paidAt := some now, paymentMethod := some "credits",
          totalUsd := some total, currency := some "USD", items := some items,
          user := some (some ⟨some userId, email⟩), coinbase := none }
      (200, { wallets := r.1.wallets, creditLedger := r.1.ledger,
              orders := upsertOrder st.orders paid, eventLog := st.eventLog })

/-- Outcome of the `fetch` to the gateway's charge-creation endpoint:
`threw` when the call raises (caught, answered 500), otherwise the
response's `ok` flag, `data.data.id`, and the truthy coalescing
`data.data.hosted_url || hostedUrl || hostedURL` (`none` when all are
absent or falsy). -/
inductive GatewayOutcome where
  | threw
  | resp (ok : Bool) (chargeId : Option String) (hostedUrl : Option String)
deriving DecidableEq, Repr

/-- The `metadata` object sent to the gateway when creating a charge. -/
structure ChargeMetadata where
  purpose : Option String
  userId : Option String
  topupId : Option String
  amountUsd : Option String
  orderId : Option String
  cartCount : Option Nat
deriving DecidableEq, Repr

/-- Metadata of a cart charge request: `{orderId, cartCount}`. -/
def cartChargeMetadata (orderId : String) (cartCount : Nat) : ChargeMetadata :=
  { purpose := none, userId := none, topupId := none, amountUsd := none,
    orderId := some orderId, cartCount := some cartCount }

/-- The `pending` order record `POST /api/coinbase/create-charge` writes
before calling the gateway. -/
def pendingCartOrder (labelPriceUsd : ℚ) (now orderId : String)
    (who : Option UserRef) (items : List CartItem) : Order where
  orderId := orderId
  createdAt := some now
  updatedAt := some now
  status := some "pending"
  paidAt := none
  paymentMethod := some "coinbase"
  totalUsd := some (calcCartTotalUsd labelPriceUsd items)
  currency := some "USD"
  items := some items
  user := some who
  coinbase := none

/-- `POST /api/coinbase/create-charge` from `server/index.js`.  `hasApiKey`
is the presence of `COINBASE_COMMERCE_API_KEY` (500 when absent); `who`
is `optionalAuth(req)`.  The pending order is written with `upsertOrder`
**before** the gateway call; the third component of the result is the
charge-request metadata handed to `fetch` (`none` when the handler
returned before calling the gateway).  A thrown fetch is answered 500,
a non-ok response or a missing hosted URL 502 — in every one of those
cases the state stays exactly as written before the call. -/
def coinbaseCreateCharge (labelPriceUsd : ℚ) (hasApiKey : Bool)
    (now orderId : String) (who : Option UserRef)
    (bodyItems : Option (List CartItem)) (gateway : GatewayOutcome)
    (st : ServerState) : Nat × ServerState × Option ChargeMetadata :=
  if !hasApiKey then (500, st, none)
  else
    let items := bodyItems.getD []
    if items.isEmpty then (400, st, none)
    else
      let pending := pendingCartOrder labelPriceUsd now orderId who items
      let st1 := { st with orders := upsertOrder st.orders pending }
      let sentMeta := cartChargeMetadata orderId items.length
      match gateway with
      | GatewayOutcome.threw => (500, st1, some sentMeta)
      | GatewayOutcome.resp ok _ hostedUrl =>
        if !ok then (502, st1, some sentMeta)
        else
          match hostedUrl with
          | none => (502, st1, some sentMeta)
          | some _ => (200, st1, some sentMeta)

/-!
## Shared helper lemmas and sample states
-/

/-- The server state with all four stores empty. -/
def st0 : ServerState := ⟨[], [], [], []⟩

/-- Folding `fun s it => s + f it` from any accumulator splits off that
accumulator. -/
theorem foldl_add_acc (f : CartItem → ℚ) (a : ℚ) (l : List CartItem) :
    l.foldl (fun s it => s + f it) a = a + l.foldl (fun s it => s + f it) 0 := by
  induction l generalizing a with
  | nil => simp
  | cons x xs ih =>
    simp only [List.foldl_cons]
    rw [ih (a + f x), ih (0 + f x), zero_add, add_assoc]

/-- The reduce in `calcCartTotalUsd` is the sum of the item contributions. -/
theorem cartSumUsd_eq_sum (lp : ℚ) (l : List CartItem) :
    cartSumUsd lp l = (l.map (itemUsd lp)).sum := by
  induction l with
  | nil => simp [cartSumUsd]
  | cons x xs ih =>
    unfold cartSumUsd at ih ⊢
    rw [List.foldl_cons, foldl_add_acc, zero_add, List.map_cons, List.sum_cons, ih]

/-- Splitting off the head of the cart sum. -/
theorem cartSumUsd_cons (lp : ℚ) (it : CartItem) (l : List CartItem) :
    cartSumUsd lp (it :: l) = itemUsd lp it + cartSumUsd lp l := by
  rw [cartSumUsd_eq_sum, cartSumUsd_eq_sum, List.map_cons, List.sum_cons]

/-- `round2` multiplied back by 100 is the (integer) floor. -/
theorem round2_mul_100 (x : ℚ) : round2 x * 100 = ((x * 100 + 1 / 2).floor : ℚ) := by
  rw [round2, div_mul_cancel₀]
  norm_num

/-!
## C3 — invalid or missing webhook signature
-/

/-- C3: a webhook request whose `X-CC-Webhook-Signature` header (read as `""`
when missing) differs from the HMAC-SHA256 of the raw body under the shared
secret is answered 400 and mutates nothing: the returned state is exactly the
input state, so no audit-log append, no ledger adjustment and no order update
happen. -/
theorem claim_C3_invalid_signature_rejected
    (hmacHex : String → String → String) (parseEvent : String → ParseResult)
    (sec now rawBody : String) (sigHeader : Option String) (st : ServerState)
    (h : sigHeader.getD "" ≠ hmacHex sec rawBody) :
    coinbaseWebhook hmacHex (some sec) parseEvent now sigHeader rawBody st = (400, st) := by
  have hb : (sigHeader.getD "" == hmacHex sec rawBody) = false :=
    beq_eq_false_iff_ne.mpr h
  simp [coinbaseWebhook, hb]

/-- C3 witness: a concrete request with a wrong signature. -/
theorem claim_C3_witness :
    ((some "bad" : Option String).getD "" ≠ (fun _ b => b) "whs" "rawbody") ∧
    coinbaseWebhook (fun _ b => b) (some "whs") (fun _ => ParseResult.err)
      "t0" (some "bad") "rawbody" st0 = (400, st0) :=
  ⟨by decide,
   claim_C3_invalid_signature_rejected (fun _ b => b) (fun _ => ParseResult.err)
     "whs" "t0" "rawbody" (some "bad") st0 (by decide)⟩

/-!
## C9 — empty cart rejection
-/

/-- C9: with the gateway key configured, both settlement operations reject an
empty cart (`body.items` missing, not an array, or `[]`) with HTTP 400 before
any mutation: the state is returned unchanged and no order record (in
particular no zero-cost order) is created. -/
theorem claim_C9_empty_cart_rejected
    (labelPriceUsd : ℚ) (now userId email orderId : String) (who : Option UserRef)
    (bodyItems : Option (List CartItem)) (gateway : GatewayOutcome) (st : ServerState)
    (h : bodyItems.getD [] = []) :
    walletPay labelPriceUsd now userId email bodyItems orderId st = (400, st) ∧
    coinbaseCreateCharge labelPriceUsd true now orderId who bodyItems gateway st
      = (400, st, none) := by
  constructor
  · simp [walletPay, h]
  · simp [coinbaseCreateCharge, h]

/-- C9 witness: a request body without an items array. -/
theorem claim_C9_witness :
    ((none : Option (List CartItem)).getD [] = []) ∧
    (walletPay 1 "t0" "u1" "e" none "o1" st0 = (400, st0) ∧
     coinbaseCreateCharge 1 true "t0" "o1" none none GatewayOutcome.threw st0
       = (400, st0, none)) :=
  ⟨rfl, claim_C9_empty_cart_rejected 1 "t0" "u1" "e" "o1" none none
     GatewayOutcome.threw st0 rfl⟩

/-!
## C6 — duplicate order creation

The source has no `DuplicateOrder` error: `upsertOrder` is the only write
to the order store, and on an existing `orderId` it spread-merges the new
fields over the stored record instead of failing.
-/

/-- A stored pending order with id `"A"`. -/
def pendingOrderA : Order :=
  { orderId := "A", createdAt := some "t0", updatedAt := some "t0",
    status := some "pending", paidAt := none, paymentMethod := some "coinbase",
    totalUsd := some 49, currency := some "USD",
    items := some [CartItem.objAccount (NumVal.fin 49)], user := some none,
    coinbase := none }

/-- A second order written under the same id `"A"`. -/
def paidPatchA : Order :=
  { orderId := "A", createdAt := none, updatedAt := some "t1",
    status := some "paid", paidAt := some "t1", paymentMethod := some "coinbase",
    totalUsd := none, currency := none, items := none, user := none,
    coinbase := some ⟨some "ch_9", "charge:confirmed"⟩ }

/-- C6 counterexample: writing an order whose `orderId` already exists does
not fail with any error — `upsertOrder` succeeds and merges into the stored
record, here turning the stored pending order paid in place. -/
theorem claim_C6_counterexample :
    upsertOrder [pendingOrderA] paidPatchA =
      [{ orderId := "A", createdAt := some "t0", updatedAt := some "t1",
         status := some "paid", paidAt := some "t1", paymentMethod := some "coinbase",
         totalUsd := some 49, currency := some "USD",
         items := some [CartItem.objAccount (NumVal.fin 49)], user := some none,
         coinbase := some ⟨some "ch_9", "charge:confirmed"⟩ }] := rfl

/-- C6 amended: creating an order whose `orderId` already exists in the store
never fails; `upsertOrder` replaces the first matching record with the spread
merge of the stored record and the new one, leaving the store's size
unchanged (no duplicate entry, no error). -/
theorem claim_C6_amended_upsert_merges (x : Order) (xs : List Order) (o : Order)
    (h : x.orderId = o.orderId) :
    upsertOrder (x :: xs) o = mergeOrder x o :: xs ∧
    (upsertOrder (x :: xs) o).length = (x :: xs).length := by
  have hb : (x.orderId == o.orderId) = true := beq_iff_eq.mpr h
  refine ⟨?_, ?_⟩ <;> simp [upsertOrder, hb]

/-- C6 witness: the merge at the concrete duplicate id `"A"`. -/
theorem claim_C6_witness :
    (pendingOrderA.orderId = paidPatchA.orderId) ∧
    (upsertOrder [pendingOrderA] paidPatchA = mergeOrder pendingOrderA paidPatchA :: [] ∧
     (upsertOrder [pendingOrderA] paidPatchA).length = [pendingOrderA].length) :=
  ⟨rfl, claim_C6_amended_upsert_merges pendingOrderA [] paidPatchA rfl⟩

/-!
## C10 — contribution of malformed cart items
-/

/-- C10: inside `calcCartTotalUsd`, any line item that is not an object with
`kind === "account"` (null, a string, or any other object) contributes
exactly the flat label price to the running sum, and an `"account"` object
whose `priceUsd` does not coerce to a finite number contributes exactly 0;
both silently — the function is total and raises nothing.  The final total
is the single rounding of that running sum. -/
theorem claim_C10_malformed_item_contributions (lp : ℚ) (l : List CartItem)
    (it : CartItem) :
    ((∀ nv, it ≠ CartItem.objAccount nv) →
        cartSumUsd lp (it :: l) = lp + cartSumUsd lp l) ∧
    (cartSumUsd lp (CartItem.objAccount NumVal.nonFinite :: l) = cartSumUsd lp l) ∧
    (calcCartTotalUsd lp l = round2 (cartSumUsd lp l)) := by
  refine ⟨?_, ?_, rfl⟩
  · intro h
    rw [cartSumUsd_cons]
    cases it with
    | jsNull => rfl
    | jsString s => rfl
    | objAccount nv => exact absurd rfl (h nv)
    | objOther => rfl
  · rw [cartSumUsd_cons, itemUsd, zero_add]

/-- C10 witness: a string item contributes the label price, a non-finite
account item contributes nothing. -/
theorem claim_C10_witness :
    (cartSumUsd 1 (CartItem.jsString "oops" :: [CartItem.objAccount NumVal.nonFinite])
       = 1 + cartSumUsd 1 [CartItem.objAccount NumVal.nonFinite]) ∧
    (cartSumUsd 1 (CartItem.objAccount NumVal.nonFinite :: [CartItem.jsString "oops"])
       = cartSumUsd 1 [CartItem.jsString "oops"]) :=
  ⟨(claim_C10_malformed_item_contributions 1 [CartItem.objAccount NumVal.nonFinite]
      (CartItem.jsString "oops")).1 (fun _ h => CartItem.noConfusion h),
   (claim_C10_malformed_item_contributions 1 [CartItem.jsString "oops"]
      (CartItem.jsString "oops")).2.1⟩

/-!
## C8 — pricing determinism under permutation
-/

/-- C8: `calcCartTotalUsd` depends only on the multiset of cart items — any
permutation of the cart yields the same total — and the total times 100 is
an integer (a whole number of cents). -/
theorem claim_C8_total_perm_invariant (lp : ℚ) (l1 l2 : List CartItem)
    (h : l1.Perm l2) :
    calcCartTotalUsd lp l1 = calcCartTotalUsd lp l2 ∧
    ∃ k : ℤ, calcCartTotalUsd lp l1 * 100 = (k : ℚ) := by
  constructor
  · unfold calcCartTotalUsd
    rw [cartSumUsd_eq_sum, cartSumUsd_eq_sum, List.Perm.sum_eq (h.map (itemUsd lp))]
  · exact ⟨(cartSumUsd lp l1 * 100 + 1 / 2).floor, by rw [calcCartTotalUsd, round2_mul_100]⟩

/-- C8 witness: a concrete two-item cart and its swap. -/
theorem claim_C8_witness :
    ([CartItem.jsNull, CartItem.objOther].Perm [CartItem.objOther, CartItem.jsNull]) ∧
    (calcCartTotalUsd 1 [CartItem.jsNull, CartItem.objOther]
        = calcCartTotalUsd 1 [CartItem.objOther, CartItem.jsNull] ∧
     ∃ k : ℤ, calcCartTotalUsd 1 [CartItem.jsNull, CartItem.objOther] * 100 = (k : ℚ)) :=
  ⟨List.Perm.swap CartItem.objOther CartItem.jsNull [],
   claim_C8_total_perm_invariant 1 _ _
     (List.Perm.swap CartItem.objOther CartItem.jsNull [])⟩

/-!
## C2 — negative balances and the insufficient-funds check
-/

/-- C2 counterexample: `addCredits` applies a debit unconditionally.  On an
empty wallet store a `-5` adjustment succeeds: it returns `-5`, stores `-5`
as the balance, and appends a ledger line — no insufficient-funds rejection,
and the stored balance is below zero. -/
theorem claim_C2_counterexample :
    (addCredits ⟨[], []⟩ "t0" "u1" (-5) "purchase" ⟨none, none, none, none, none⟩).2 = -5 ∧
    getBalance (addCredits ⟨[], []⟩ "t0" "u1" (-5) "purchase"
        ⟨none, none, none, none, none⟩).1.wallets "u1" = -5 ∧
    ((-5 : ℚ) < 0) ∧
    (addCredits ⟨[], []⟩ "t0" "u1" (-5) "purchase"
        ⟨none, none, none, none, none⟩).1.ledger.length = 1 := by
  refine ⟨?_, ?_, by norm_num, rfl⟩
  · simp [addCredits, walletsLookup, round2_eq_floor]
    norm_num
  · simp [addCredits, getBalance, walletsLookup, walletsSet, round2_eq_floor]
    norm_num

/-- C2 amended: the insufficient-funds rejection lives in the wallet-pay
endpoint, not in `addCredits`: whenever the stored balance is below the cart
total, `POST /api/wallet/pay` answers 400 and leaves the whole state
unchanged (no debit, no ledger line, no order).  `addCredits` itself
performs no check and can drive a balance negative. -/
theorem claim_C2_amended_insufficient_funds_rejected
    (labelPriceUsd : ℚ) (now userId email orderId : String)
    (bodyItems : Option (List CartItem)) (st : ServerState)
    (h : getBalance st.wallets userId
        < calcCartTotalUsd labelPriceUsd (bodyItems.getD [])) :
    walletPay labelPriceUsd now userId email bodyItems orderId st = (400, st) := by
  by_cases he : (bodyItems.getD []).isEmpty
  · simp [walletPay, he]
  · simp [walletPay, he, h]

/-- A wallet store holding `$10.00` for user `"u1"`. -/
def stBal10 : ServerState := ⟨[("u1", ⟨10, "t0"⟩)], [], [], []⟩

/-- C2 witness: balance `$10.00`, cart total `$15.00`, rejected unchanged. -/
theorem claim_C2_witness :
    (getBalance stBal10.wallets "u1"
        < calcCartTotalUsd 1 ((some [CartItem.objAccount (NumVal.fin 15)]).getD [])) ∧
    walletPay 1 "t1" "u1" "e" (some [CartItem.objAccount (NumVal.fin 15)]) "o1" stBal10
      = (400, stBal10) := by
  have h : getBalance stBal10.wallets "u1"
      < calcCartTotalUsd 1 ((some [CartItem.objAccount (NumVal.fin 15)]).getD []) := by
    simp [getBalance, stBal10, walletsLookup, calcCartTotalUsd, cartSumUsd, itemUsd,
      round2_eq_floor]
    norm_num
  exact ⟨h, claim_C2_amended_insufficient_funds_rejected 1 "t1" "u1" "e" "o1"
    (some [CartItem.objAccount (NumVal.fin 15)]) stBal10 h⟩

/-!
## C1 — webhook idempotency under duplicate delivery
-/

/-- A constant HMAC environment: every body signs to `"sig"`. -/
def hmConst : String → String → String := fun _ _ => "sig"

/-- The verified duplicate event of the spec's Scenario C: a
`charge:confirmed` top-up of `$25.00` for user `"u1"`. -/
def topupEvent : WebhookEvent :=
  WebhookEvent.mk "charge:confirmed"
    (some (WebhookData.mk (some "ch_1")
      (some (WebhookMeta.mk (some "topup") (some "u1") none (some (NumVal.fin 25))))))

/-- Parsing that yields the top-up event (the same raw body both times). -/
def peTopup : String → ParseResult := fun _ => ParseResult.ok topupEvent

/-- C1: the code has no idempotency check — delivering the identical verified
`purpose=topup, amountUsd=25` webhook twice credits the wallet twice: the
balance is `$25.00` after one delivery and `$50.00` (not `$25.00`) after the
duplicate, contradicting the claimed replay-safety. -/
theorem claim_C1_duplicate_topup_double_credit :
    getBalance ((coinbaseWebhook hmConst (some "whs") peTopup "t1" (some "sig")
        "raw" st0).2).wallets "u1" = 25 ∧
    getBalance ((coinbaseWebhook hmConst (some "whs") peTopup "t2" (some "sig") "raw"
        ((coinbaseWebhook hmConst (some "whs") peTopup "t1" (some "sig")
          "raw" st0).2)).2).wallets "u1" = 50 := by
  constructor <;>
  · simp [coinbaseWebhook, hmConst, peTopup, topupEvent, st0, addCredits, getBalance,
      walletsLookup, walletsSet, round2_eq_floor]
    norm_num

/-!
## C5 — audit-log persistence of verified events
-/

/-- A verified event of a type other than `charge:confirmed`/`charge:resolved`. -/
def createdEvent : WebhookEvent :=
  WebhookEvent.mk "charge:created" (some (WebhookData.mk (some "ch_2") none))

/-- Parsing that yields the `charge:created` event. -/
def peCreated : String → ParseResult := fun _ => ParseResult.ok createdEvent

/-- C5 counterexample: a verified `charge:created` event is acknowledged with
200 but the returned state is exactly the input state — in particular the
event log is still empty, so not every verified event is appended to the
append-only log. -/
theorem claim_C5_counterexample :
    coinbaseWebhook hmConst (some "whs") peCreated "t1" (some "sig") "raw" st0
      = (200, st0) ∧ st0.eventLog = [] := ⟨rfl, rfl⟩

/-- C5 amended: only verified events whose type is `charge:confirmed` or
`charge:resolved` are appended to the event log; for those the append is
unconditional — it happens exactly once whatever the metadata, i.e. also
when no ledger or order side effect is dispatched — and the request is
answered 200. -/
theorem claim_C5_amended_confirmed_resolved_logged
    (hmacHex : String → String → String) (parseEvent : String → ParseResult)
    (sec now rawBody : String) (sigHeader : Option String) (ev : WebhookEvent)
    (st : ServerState)
    (hsig : sigHeader.getD "" = hmacHex sec rawBody)
    (hpe : parseEvent rawBody = ParseResult.ok ev)
    (hty : ev.type = "charge:confirmed" ∨ ev.type = "charge:resolved") :
    ((coinbaseWebhook hmacHex (some sec) parseEvent now sigHeader rawBody st).2).eventLog
      = st.eventLog ++ [⟨now, ev⟩] ∧
    (coinbaseWebhook hmacHex (some sec) parseEvent now sigHeader rawBody st).1 = 200 := by
  have hb : (sigHeader.getD "" == hmacHex sec rawBody) = true := beq_iff_eq.mpr hsig
  have ht : (ev.type == "charge:confirmed" || ev.type == "charge:resolved") = true := by
    rcases hty with h | h <;> simp [h]
  rcases hM : ev.data.bind WebhookData.metadata with _ | m
  · constructor <;>
      simp [coinbaseWebhook, hb, hpe, ht, hM, apply_ite ServerState.eventLog]
  · rcases hA : m.amountUsd with _ | nv
    · constructor <;>
        simp [coinbaseWebhook, hb, hpe, ht, hM, hA, apply_ite ServerState.eventLog]
    · cases nv <;> constructor <;>
        simp [coinbaseWebhook, hb, hpe, ht, hM, hA, apply_ite ServerState.eventLog]

/-- C5 witness: a verified `charge:confirmed` top-up event gets its audit
line appended. -/
theorem claim_C5_witness :
    ((some "sig" : Option String).getD "" = hmConst "whs" "raw") ∧
    (peTopup "raw" = ParseResult.ok topupEvent) ∧
    (topupEvent.type = "charge:confirmed" ∨ topupEvent.type = "charge:resolved") ∧
    (((coinbaseWebhook hmConst (some "whs") peTopup "t1" (some "sig") "raw" st0).2).eventLog
        = st0.eventLog ++ [⟨"t1", topupEvent⟩] ∧
     (coinbaseWebhook hmConst (some "whs") peTopup "t1" (some "sig") "raw" st0).1 = 200) :=
  ⟨rfl, rfl, Or.inl rfl,
   claim_C5_amended_confirmed_resolved_logged hmConst peTopup "whs" "t1" "raw"
     (some "sig") topupEvent st0 rfl rfl (Or.inl rfl)⟩

/-!
## C7 — pending order before the gateway call, no ledger effect
-/

/-- C7: on the cart create-charge path with a non-empty cart (and the gateway
key configured), for **every** gateway outcome the resulting store is the
input store with exactly the `pending` order upserted — wallets and credit
ledger untouched — the metadata handed to the gateway carries the same
`orderId` as the persisted pending record (so the state write precedes and
does not depend on the gateway call), and a non-ok response or a missing
hosted URL is answered 502 leaving just that pending order. -/
theorem claim_C7_pending_before_gateway
    (labelPriceUsd : ℚ) (now orderId : String) (who : Option UserRef)
    (bodyItems : Option (List CartItem)) (g : GatewayOutcome) (st : ServerState)
    (h : bodyItems.getD [] ≠ []) :
    ((coinbaseCreateCharge labelPriceUsd true now orderId who bodyItems g st).2.1.orders
        = upsertOrder st.orders
            (pendingCartOrder labelPriceUsd now orderId who (bodyItems.getD []))) ∧
    ((coinbaseCreateCharge labelPriceUsd true now orderId who bodyItems g st).2.1.wallets
        = st.wallets) ∧
    ((coinbaseCreateCharge labelPriceUsd true now orderId who bodyItems g st).2.1.creditLedger
        = st.creditLedger) ∧
    ((coinbaseCreateCharge labelPriceUsd true now orderId who bodyItems g st).2.2
        = some (cartChargeMetadata orderId (bodyItems.getD []).length)) ∧
    ((pendingCartOrder labelPriceUsd now orderId who (bodyItems.getD [])).status
        = some "pending") ∧
    ((cartChargeMetadata orderId (bodyItems.getD []).length).orderId = some orderId) ∧
    (∀ ok cid url, g = GatewayOutcome.resp ok cid url → (ok = false ∨ url = none) →
      (coinbaseCreateCharge labelPriceUsd true now orderId who bodyItems g st).1 = 502) := by
  have hne : (bodyItems.getD []).isEmpty = false := by
    cases hb : bodyItems.getD [] with
    | nil => exact absurd hb h
    | cons a l => rfl
  refine ⟨?_, ?_, ?_, ?_, rfl, rfl, ?_⟩
  · rcases g with _ | ⟨ok, cid, url⟩ <;>
      [skip; (cases ok <;> cases url)] <;> simp [coinbaseCreateCharge, hne]
  · rcases g with _ | ⟨ok, cid, url⟩ <;>
      [skip; (cases ok <;> cases url)] <;> simp [coinbaseCreateCharge, hne]
  · rcases g with _ | ⟨ok, cid, url⟩ <;>
      [skip; (cases ok <;> cases url)] <;> simp [coinbaseCreateCharge, hne]
  · rcases g with _ | ⟨ok, cid, url⟩ <;>
      [skip; (cases ok <;> cases url)] <;> simp [coinbaseCreateCharge, hne]
  · rintro ok cid url rfl hfail
    rcases hfail with rfl | rfl
    · simp [coinbaseCreateCharge, hne]
    · cases ok <;> simp [coinbaseCreateCharge, hne]

/-- C7 witness: a one-label cart against a gateway that answers non-ok. -/
theorem claim_C7_witness :
    ((some [CartItem.jsNull] : Option (List CartItem)).getD [] ≠ []) ∧
    (((coinbaseCreateCharge 1 true "t0" "oA" none (some [CartItem.jsNull])
          (GatewayOutcome.resp false none none) st0).2.1.orders
        = upsertOrder st0.orders
            (pendingCartOrder 1 "t0" "oA" none
              ((some [CartItem.jsNull] : Option (List CartItem)).getD []))) ∧
     ((coinbaseCreateCharge 1 true "t0" "oA" none (some [CartItem.jsNull])
          (GatewayOutcome.resp false none none) st0).2.1.wallets = st0.wallets) ∧
     ((coinbaseCreateCharge 1 true "t0" "oA" none (some [CartItem.jsNull])
          (GatewayOutcome.resp false none none) st0).2.1.creditLedger = st0.creditLedger) ∧
     ((coinbaseCreateCharge 1 true "t0" "oA" none (some [CartItem.jsNull])
          (GatewayOutcome.resp false none none) st0).2.2
        = some (cartChargeMetadata "oA"
            ((some [CartItem.jsNull] : Option (List CartItem)).getD []).length)) ∧
     ((pendingCartOrder 1 "t0" "oA" none
          ((some [CartItem.jsNull] : Option (List CartItem)).getD [])).status
        = some "pending") ∧
     ((cartChargeMetadata "oA"
          ((some [CartItem.jsNull] : Option (List CartItem)).getD []).length).orderId
        = some "oA") ∧
     (∀ ok cid url,
        GatewayOutcome.resp false none none = GatewayOutcome.resp ok cid url →
        (ok = false ∨ url = none) →
        (coinbaseCreateCharge 1 true "t0" "oA" none (some [CartItem.jsNull])
            (GatewayOutcome.resp false none none) st0).1 = 502)) :=
  ⟨by decide,
   claim_C7_pending_before_gateway 1 "t0" "oA" none (some [CartItem.jsNull])
     (GatewayOutcome.resp false none none) st0 (by decide)⟩

/-!
## C4 — money representation inside the pricing computation
-/

/-- C4 counterexample: `calcCartTotalUsd` does not sum integer cents — the
reduce runs over decimal USD amounts.  For an account item priced at
`0.155` USD the running sum is `31/200` USD, i.e. `15.5` cents, which is
not an integer number of cents; only the final `toFixed(2)` makes the
result whole cents. -/
theorem claim_C4_counterexample :
    cartSumUsd 1 [CartItem.objAccount (NumVal.fin (31 / 200))] = 31 / 200 ∧
    ¬ ∃ k : ℤ, (31 / 200 : ℚ) * 100 = (k : ℚ) := by
  constructor
  · simp [cartSumUsd, itemUsd]
  · rintro ⟨k, hk⟩
    have h2 : (2 : ℚ) * (k : ℚ) = 31 := by rw [← hk]; norm_num
    have h3 : (2 * k : ℤ) = 31 := by exact_mod_cast h2
    omega

/-- C4 amended: amounts are summed as decimal USD numbers, not integer
cents, and rounding to two decimals happens once per boundary: the cart
total is the single rounding of the running sum, and every boundary value —
the returned cart total, the balance stored and returned by `addCredits`,
and the balance read by `getBalance` — is a whole number of cents. -/
theorem claim_C4_amended_boundary_amounts_integer_cents
    (lp : ℚ) (items : List CartItem) (cs : CreditState)
    (now uid reason : String) (delta : ℚ) (m : LedgerMeta) :
    calcCartTotalUsd lp items = round2 (cartSumUsd lp items) ∧
    (∃ k : ℤ, calcCartTotalUsd lp items * 100 = (k : ℚ)) ∧
    (∃ k : ℤ, (addCredits cs now uid delta reason m).2 * 100 = (k : ℚ)) ∧
    (∃ k : ℤ, getBalance cs.wallets uid * 100 = (k : ℚ)) :=
  ⟨rfl, ⟨_, round2_mul_100 _⟩, ⟨_, round2_mul_100 _⟩, ⟨_, round2_mul_100 _⟩⟩
